import Mathlib

/-!
Verification of the uni20 repository's Python test harnesses and example
script against its natural-language specification.

The repository consists of three Python files:
  * tests/python/test_buildinfo.py — validates the shape of the mapping
    returned by the compiled binding's buildinfo() entry point;
  * tests/python/test_greet.py — smoke-tests the greet() entry point;
  * examples/python_buildinfo_example.py — prints the buildinfo mapping.

We shallowly embed the Python values these scripts inspect as `PyVal`
(strings, integers, None, and dictionaries represented as association
lists), translate the test-body assertion sequences into Boolean
predicates over `PyVal`, and model the module-loading side effects of
`_load_module` / `main` as explicit effect traces over a `SysState`
carrying `sys.path` and `sys.argv`.
-/

/-- Shallow embedding of the Python values the scripts inspect: strings,
integers (standing in for arbitrary non-string, non-dict objects whose
truthiness matters), `None`, and dictionaries as association lists of
key/value pairs. -/
inductive PyVal where
  | str (s : String)
  | int (n : Int)
  | noneV
  | dict (entries : List (PyVal × PyVal))

/-- Python `isinstance(x, str)`. -/
def PyVal.isStr : PyVal → Bool
  | .str _ => true
  | _ => false

/-- Python `isinstance(x, dict)`. -/
def PyVal.isDict : PyVal → Bool
  | .dict _ => true
  | _ => false

/-- Python truthiness (`bool(x)`): empty strings, zero, `None` and empty
dicts are falsy; everything else in our universe is truthy. -/
def pyTruthy : PyVal → Bool
  | .str s => !(s == "")
  | .int n => !(n == 0)
  | .noneV => false
  | .dict l => !l.isEmpty

/-- Whether a dictionary key equals the given Python string: in our value
universe only the string itself compares equal to a string key. -/
def isStrKey (k : PyVal) (s : String) : Bool :=
  match k with
  | .str t => t == s
  | _ => false

/-- Dictionary lookup by a string key, as Python `d[s]` / `d.get(s)` /
`s in d` use it (first matching entry). -/
def strLookup (l : List (PyVal × PyVal)) (s : String) : Option PyVal :=
  (l.find? (fun e => isStrKey e.1 s)).map (fun e => e.2)

/-- Python `x == "lit"` for a value of our universe against a string
literal: true exactly when `x` is that string. -/
def pyEqStr (x : PyVal) (s : String) : Bool :=
  match x with
  | .str t => t == s
  | _ => false

/-! ### test_greet.py: the assertion of test_greet_returns_expected_message -/

/-- The literal greeting compared against in test_greet.py, line 30. -/
def greetExpected : String := "Hello from uni20!"

/-- The body of `GreetTests.test_greet_returns_expected_message`: it passes
exactly when `assertEqual(_UNI20_MODULE.greet(), "Hello from uni20!")`
succeeds, where `ret` is the value returned by `greet()`. -/
def testGreetPasses (ret : PyVal) : Bool :=
  pyEqStr ret greetExpected

/-! ### test_buildinfo.py: the assertion sequence of
test_buildinfo_reports_metadata, split by code region. -/

/-- The `expected_keys` set of test_buildinfo.py, lines 34–43. -/
def expectedKeys : List String :=
  ["generator", "build_type", "system_name", "system_version",
   "system_processor", "cxx_compiler_id", "cxx_compiler_version",
   "cxx_compiler_path"]

/-- The two collection keys iterated at line 50 of test_buildinfo.py. -/
def collectionKeys : List String := ["build_options", "detected_environment"]

/-- Lines 45–48 of test_buildinfo.py:
`assertTrue(expected_keys.issubset(info.keys()))`, then for each expected
key `assertIsInstance(info[key], str)` and `assertTrue(info[key])`. -/
def requiredFieldChecksPass (l : List (PyVal × PyVal)) : Bool :=
  expectedKeys.all (fun k => (strLookup l k).isSome) &&
  expectedKeys.all (fun k =>
    match strLookup l k with
    | some v => v.isStr && pyTruthy v
    | none => false)

/-- The loop body at lines 55–62 of test_buildinfo.py, for one
`(option_name, metadata)` item of a collection:
`assertIsInstance(option_name, str)`; `assertIsInstance(metadata, dict)`;
`assertIn("value", metadata)`; `assertIsInstance(metadata["value"], str)`;
`assertTrue(metadata["value"] or metadata.get("help"))`; and if `"help"`
is a key of `metadata`, `assertIsInstance(metadata["help"], str)`. -/
def entryCheckPasses (optionName metadata : PyVal) : Bool :=
  optionName.isStr &&
  (match metadata with
   | .dict m =>
     (match strLookup m "value" with
      | some v =>
        v.isStr &&
        (pyTruthy v ||
          (match strLookup m "help" with
           | some h => pyTruthy h
           | none => false)) &&
        (match strLookup m "help" with
         | some h => h.isStr
         | none => true)
      | none => false)
   | _ => false)

/-- Lines 50–62 of test_buildinfo.py for one collection name `c`:
`assertIn(c, info)`; `assertIsInstance(info[c], dict)`;
`assertTrue(info[c])`; then the per-item checks over `info[c].items()`. -/
def collectionCheckPasses (l : List (PyVal × PyVal)) (c : String) : Bool :=
  match strLookup l c with
  | some (.dict entries) =>
    !entries.isEmpty && entries.all (fun e => entryCheckPasses e.1 e.2)
  | some _ => false
  | none => false

/-- The whole body of `BuildInfoTests.test_buildinfo_reports_metadata`
(lines 29–62) as a predicate on the value `info` returned by
`buildinfo()`: `assertIsInstance(info, dict)`, then the required-field
checks, then the two collection checks. -/
def testBuildinfoPasses (info : PyVal) : Bool :=
  match info with
  | .dict l => requiredFieldChecksPass l && collectionKeys.all (fun c => collectionCheckPasses l c)
  | _ => false

/-! ### Effect-trace model of _load_module (both test files) and of the
example's main. -/

/-- The observable side effects of the loading code: raising
`unittest.SkipTest`, `sys.path.insert(0, p)`, assignment to `sys.argv`,
`importlib.import_module(name)` / `import name`, and `pprint.pp(v)`
(printing `v` to standard output in pretty-printed form). -/
inductive Effect where
  | raiseSkipTest
  | insertPathFront (p : String)
  | setArgv (argv : List String)
  | importModule (name : String)
  | printPretty (v : PyVal)

/-- The mutable interpreter state the scripts touch: `sys.path` and
`sys.argv`. -/
structure SysState where
  path : List String
  argv : List String

/-- How each effect transforms the interpreter state. -/
def applyEffect (s : SysState) : Effect → SysState
  | .insertPathFront p => { s with path := p :: s.path }
  | .setArgv a => { s with argv := a }
  | _ => s

/-- Run a trace of effects on an initial state. -/
def runTrace (s : SysState) (es : List Effect) : SysState :=
  es.foldl applyEffect s

/-- Lines 12–20 of test_buildinfo.py and test_greet.py (`_load_module`,
identical in the two files except for the imported module name): if
`len(sys.argv) < 2` raise `unittest.SkipTest`; otherwise insert
`Path(sys.argv[1]).resolve()` at position 0 of `sys.path`, set
`sys.argv = [sys.argv[0]]`, and import the module. `resolve` abstracts
`pathlib.Path.resolve`, which is standard-library code outside this
repository. -/
def loadModuleTrace (resolve : String → String) (modName : String)
    (argv : List String) : List Effect :=
  if argv.length < 2 then
    [Effect.raiseSkipTest]
  else
    [Effect.insertPathFront (resolve (argv.getD 1 "")),
     Effect.setArgv (argv.take 1),
     Effect.importModule modName]

/-- The module name imported at line 20 of test_buildinfo.py. -/
def buildinfoModuleName : String := "uni20"

/-- The module name imported at line 20 of test_greet.py. -/
def greetModuleName : String := "uni20_python"

/-- The module name imported at line 20 of
examples/python_buildinfo_example.py. -/
def exampleModuleName : String := "uni20"

/-- `_load_module` of test_buildinfo.py. -/
def buildinfoTestLoad (resolve : String → String) (argv : List String) : List Effect :=
  loadModuleTrace resolve buildinfoModuleName argv

/-- `_load_module` of test_greet.py. -/
def greetTestLoad (resolve : String → String) (argv : List String) : List Effect :=
  loadModuleTrace resolve greetModuleName argv

/-- Lines 11–26 of examples/python_buildinfo_example.py (`main`): if
`len(sys.argv) > 1`, insert `Path(sys.argv[1]).resolve()` at position 0
of `sys.path`; then `import uni20` and `pprint.pp(uni20.buildinfo())`,
where `ret` is the value `buildinfo()` returned. -/
def exampleMainTrace (resolve : String → String) (argv : List String)
    (ret : PyVal) : List Effect :=
  (if argv.length > 1 then
    [Effect.insertPathFront (resolve (argv.getD 1 ""))]
   else []) ++
  [Effect.importModule exampleModuleName, Effect.printPretty ret]

/-- A POSIX path is absolute when its first character is a slash; used to
state the abstract property of `pathlib.Path.resolve` that the spec
appeals to. -/
def isAbsolutePath (p : String) : Bool :=
  match p.data with
  | c :: _ => c == '/'
  | [] => false

/-! ### Theorems -/

/-- C3: the greet smoke test passes if and only if the loaded module's
`greet()` returned a value equal to the literal string
"Hello from uni20!"; any other value fails the test. -/
theorem greet_test_iff_literal (ret : PyVal) :
    testGreetPasses ret = true ↔ ret = PyVal.str "Hello from uni20!" := by
  cases ret <;> simp [testGreetPasses, pyEqStr, greetExpected]

/-- C3 witness: the test passes at the exact literal. -/
theorem greet_test_iff_literal_witness :
    testGreetPasses (PyVal.str "Hello from uni20!") = true :=
  (greet_test_iff_literal (PyVal.str "Hello from uni20!")).mpr rfl

/-- C2: the required-field portion of the buildinfo test passes if and
only if each of the eight expected keys is present, maps to a string, and
that string is non-empty; a missing key, a non-string value, or an empty
string makes it fail. -/
theorem required_fields_iff (l : List (PyVal × PyVal)) :
    requiredFieldChecksPass l = true ↔
      ∀ k ∈ expectedKeys, ∃ s, strLookup l k = some (PyVal.str s) ∧ s ≠ "" := by
  simp only [requiredFieldChecksPass, Bool.and_eq_true, List.all_eq_true]
  constructor
  · rintro ⟨-, h2⟩ k hk
    have hh := h2 k hk
    cases hv : strLookup l k with
    | none => rw [hv] at hh; exact absurd hh (by simp)
    | some v =>
      rw [hv] at hh
      cases v with
      | str s =>
        refine ⟨s, rfl, ?_⟩
        simpa [PyVal.isStr, pyTruthy] using hh
      | int n => simp [PyVal.isStr] at hh
      | noneV => simp [PyVal.isStr] at hh
      | dict m => simp [PyVal.isStr] at hh
  · intro h
    refine ⟨fun k hk => ?_, fun k hk => ?_⟩
    · obtain ⟨s, hs, -⟩ := h k hk
      rw [hs]; rfl
    · obtain ⟨s, hs, hne⟩ := h k hk
      rw [hs]
      simp [PyVal.isStr, pyTruthy, hne]

/-- A concrete buildinfo mapping that passes every assertion of
test_buildinfo_reports_metadata, used by witnesses. -/
def goodInfoEntries : List (PyVal × PyVal) :=
  [(PyVal.str "generator", PyVal.str "Ninja"),
   (PyVal.str "build_type", PyVal.str "Release"),
   (PyVal.str "system_name", PyVal.str "Linux"),
   (PyVal.str "system_version", PyVal.str "6.1.0"),
   (PyVal.str "system_processor", PyVal.str "x86_64"),
   (PyVal.str "cxx_compiler_id", PyVal.str "GNU"),
   (PyVal.str "cxx_compiler_version", PyVal.str "13.2.0"),
   (PyVal.str "cxx_compiler_path", PyVal.str "/usr/bin/g++"),
   (PyVal.str "build_options",
     PyVal.dict [(PyVal.str "UNI20_ENABLE_TESTS",
       PyVal.dict [(PyVal.str "value", PyVal.str "ON")])]),
   (PyVal.str "detected_environment",
     PyVal.dict [(PyVal.str "BLAS_VENDOR",
       PyVal.dict [(PyVal.str "value", PyVal.str ""),
                   (PyVal.str "help", PyVal.str "Detected BLAS vendor")])])]

/-- C2 witness: the concrete passing mapping satisfies the required-field
characterisation. -/
theorem required_fields_iff_witness :
    ∀ k ∈ expectedKeys,
      ∃ s, strLookup goodInfoEntries k = some (PyVal.str s) ∧ s ≠ "" :=
  (required_fields_iff goodInfoEntries).mp (by decide)

/-- The per-entry acceptance condition exactly as the claim states it:
the metadata is a mapping containing a `value` string, and either that
string is non-empty or a `help` key is present holding a non-empty
string. Written from the claim's words, for comparison with the code's
`entryCheckPasses`. -/
def claimEntryAccepts (metadata : PyVal) : Bool :=
  match metadata with
  | .dict m =>
    (match strLookup m "value" with
     | some (.str v) =>
       !(v == "") ||
         (match strLookup m "help" with
          | some (.str h) => !(h == "")
          | _ => false)
     | _ => false)
  | _ => false

/-- C1 counterexample: an entry whose `value` is the non-empty string
"ON" but whose `help` is the integer 1 satisfies the claim's acceptance
condition, yet the code's per-entry checks reject it (the final
`assertIsInstance(metadata["help"], str)` fails). -/
theorem entry_check_claim_counterexample :
    entryCheckPasses (PyVal.str "UNI20_ENABLE_TESTS")
        (PyVal.dict [(PyVal.str "value", PyVal.str "ON"),
                     (PyVal.str "help", PyVal.int 1)]) = false ∧
      claimEntryAccepts
        (PyVal.dict [(PyVal.str "value", PyVal.str "ON"),
                     (PyVal.str "help", PyVal.int 1)]) = true := by
  exact ⟨rfl, rfl⟩

/-- The amended per-entry acceptance condition: the option name is a
string, the metadata is a mapping containing a `value` string, a `help`
key — when present — holds a string, and either the `value` string is
non-empty or `help` is present and non-empty. Written from the amended
claim's words. -/
def claimEntryAcceptsAmended (optionName metadata : PyVal) : Bool :=
  match optionName, metadata with
  | .str _, .dict m =>
    (match strLookup m "value", strLookup m "help" with
     | some (.str v), none => !(v == "")
     | some (.str v), some (.str h) => !(v == "") || !(h == "")
     | _, _ => false)
  | _, _ => false

/-- C1 amended: the code's per-entry checks accept an entry exactly when
the option name is a string, the metadata is a mapping with a string
`value`, any present `help` is a string, and either `value` is non-empty
or `help` is present and non-empty. -/
theorem entry_check_amended (optionName metadata : PyVal) :
    entryCheckPasses optionName metadata =
      claimEntryAcceptsAmended optionName metadata := by
  cases optionName with
  | str s =>
    cases metadata with
    | dict m =>
      simp only [entryCheckPasses, claimEntryAcceptsAmended, PyVal.isStr,
        Bool.true_and]
      cases hv : strLookup m "value" with
      | none => cases hh : strLookup m "help" <;> rfl
      | some v =>
        cases hh : strLookup m "help" with
        | none =>
          cases v <;> simp [PyVal.isStr, pyTruthy]
        | some h =>
          cases v <;> cases h <;>
            simp [PyVal.isStr, pyTruthy, Bool.and_comm, Bool.and_assoc]
    | str t => rfl
    | int n => rfl
    | noneV => rfl
  | int n => cases metadata <;> rfl
  | noneV => cases metadata <;> rfl
  | dict m => cases metadata <;> rfl

/-- C1 witness for the amended claim: instantiated at a concrete entry. -/
theorem entry_check_amended_witness :
    entryCheckPasses (PyVal.str "UNI20_DEBUG")
        (PyVal.dict [(PyVal.str "value", PyVal.str "OFF")]) =
      claimEntryAcceptsAmended (PyVal.str "UNI20_DEBUG")
        (PyVal.dict [(PyVal.str "value", PyVal.str "OFF")]) :=
  entry_check_amended (PyVal.str "UNI20_DEBUG")
    (PyVal.dict [(PyVal.str "value", PyVal.str "OFF")])

/-- C6: whenever the buildinfo test passes, the returned value is a
dictionary whose `build_options` and `detected_environment` keys are each
bound to a non-empty dictionary. -/
theorem buildinfo_pass_collections (info : PyVal)
    (h : testBuildinfoPasses info = true) :
    ∃ l, info = PyVal.dict l ∧
      (∃ lb, strLookup l "build_options" = some (PyVal.dict lb) ∧ lb ≠ []) ∧
      (∃ ld, strLookup l "detected_environment" = some (PyVal.dict ld) ∧
        ld ≠ []) := by
  cases info with
  | str s => exact absurd h (by simp [testBuildinfoPasses])
  | int n => exact absurd h (by simp [testBuildinfoPasses])
  | noneV => exact absurd h (by simp [testBuildinfoPasses])
  | dict l =>
    refine ⟨l, rfl, ?_, ?_⟩ <;>
    · simp only [testBuildinfoPasses, Bool.and_eq_true, List.all_eq_true,
        collectionKeys] at h
      have hc := h.2
      simp only [List.mem_cons, List.not_mem_nil, or_false,
        forall_eq_or_imp, forall_eq] at hc
      obtain ⟨hb, hd⟩ := hc
      first
      | (clear hd
         unfold collectionCheckPasses at hb
         cases hv : strLookup l "build_options" with
         | none => rw [hv] at hb; exact absurd hb (by simp)
         | some v =>
           rw [hv] at hb
           cases v with
           | dict entries =>
             refine ⟨entries, rfl, ?_⟩
             rw [Bool.and_eq_true] at hb
             simpa [List.isEmpty_iff] using hb.1
           | str s => exact absurd hb (by simp)
           | int n => exact absurd hb (by simp)
           | noneV => exact absurd hb (by simp))
      | (clear hb
         unfold collectionCheckPasses at hd
         cases hv : strLookup l "detected_environment" with
         | none => rw [hv] at hd; exact absurd hd (by simp)
         | some v =>
           rw [hv] at hd
           cases v with
           | dict entries =>
             refine ⟨entries, rfl, ?_⟩
             rw [Bool.and_eq_true] at hd
             simpa [List.isEmpty_iff] using hd.1
           | str s => exact absurd hd (by simp)
           | int n => exact absurd hd (by simp)
           | noneV => exact absurd hd (by simp))

/-- C6 witness: instantiated at the concrete passing mapping. -/
theorem buildinfo_pass_collections_witness :
    ∃ l, PyVal.dict goodInfoEntries = PyVal.dict l ∧
      (∃ lb, strLookup l "build_options" = some (PyVal.dict lb) ∧ lb ≠ []) ∧
      (∃ ld, strLookup l "detected_environment" = some (PyVal.dict ld) ∧
        ld ≠ []) :=
  buildinfo_pass_collections (PyVal.dict goodInfoEntries) (by decide)

/-- The ten top-level keys the buildinfo test inspects. -/
def specialKeys : List String := expectedKeys ++ collectionKeys

/-- The required-field checks only read the lookups of the expected keys. -/
theorem requiredFieldChecksPass_congr {l1 l2 : List (PyVal × PyVal)}
    (h : ∀ k ∈ expectedKeys, strLookup l1 k = strLookup l2 k) :
    requiredFieldChecksPass l1 = requiredFieldChecksPass l2 := by
  rw [Bool.eq_iff_iff]
  simp only [requiredFieldChecksPass, Bool.and_eq_true, List.all_eq_true]
  constructor <;> rintro ⟨ha, hb⟩ <;> refine ⟨fun k hk => ?_, fun k hk => ?_⟩
  · rw [← h k hk]; exact ha k hk
  · rw [← h k hk]; exact hb k hk
  · rw [h k hk]; exact ha k hk
  · rw [h k hk]; exact hb k hk

/-- A collection check only reads the lookup of its own key. -/
theorem collectionCheckPasses_congr {l1 l2 : List (PyVal × PyVal)}
    (c : String) (h : strLookup l1 c = strLookup l2 c) :
    collectionCheckPasses l1 c = collectionCheckPasses l2 c := by
  unfold collectionCheckPasses
  rw [h]

/-- The whole test verdict only reads the lookups of the ten special
keys. -/
theorem testBuildinfoPasses_congr {l1 l2 : List (PyVal × PyVal)}
    (h : ∀ k ∈ specialKeys, strLookup l1 k = strLookup l2 k) :
    testBuildinfoPasses (PyVal.dict l1) = testBuildinfoPasses (PyVal.dict l2) := by
  have hr : requiredFieldChecksPass l1 = requiredFieldChecksPass l2 :=
    requiredFieldChecksPass_congr
      (fun k hk => h k (by simp [specialKeys, List.mem_append, hk]))
  have hb : collectionCheckPasses l1 "build_options" =
      collectionCheckPasses l2 "build_options" :=
    collectionCheckPasses_congr _
      (h _ (by simp [specialKeys, collectionKeys, List.mem_append]))
  have hd : collectionCheckPasses l1 "detected_environment" =
      collectionCheckPasses l2 "detected_environment" :=
    collectionCheckPasses_congr _
      (h _ (by simp [specialKeys, collectionKeys, List.mem_append]))
  simp only [testBuildinfoPasses, collectionKeys, List.all_cons, List.all_nil]
  rw [hr, hb, hd]

/-- A string-key lookup that succeeds in `l` is unchanged by appending
further entries. -/
theorem strLookup_append_left (l extra : List (PyVal × PyVal)) (k : String)
    (h : (strLookup l k).isSome = true) :
    strLookup (l ++ extra) k = strLookup l k := by
  induction l with
  | nil => simp [strLookup] at h
  | cons a t ih =>
    cases hk : isStrKey a.1 k with
    | true =>
      simp only [strLookup, List.cons_append, List.find?_cons, hk]
    | false =>
      simp only [strLookup, List.cons_append, List.find?_cons, hk] at h ⊢
      exact ih h

/-- When the test passes, every special key is present. -/
theorem pass_special_keys_present {l : List (PyVal × PyVal)}
    (h : testBuildinfoPasses (PyVal.dict l) = true) :
    ∀ k ∈ specialKeys, (strLookup l k).isSome = true := by
  intro k hk
  simp only [testBuildinfoPasses, Bool.and_eq_true] at h
  rcases List.mem_append.mp (by simpa [specialKeys] using hk) with hk1 | hk2
  · have hreq := h.1
    simp only [requiredFieldChecksPass, Bool.and_eq_true,
      List.all_eq_true] at hreq
    exact hreq.1 k hk1
  · have hcol := List.all_eq_true.mp h.2 k hk2
    unfold collectionCheckPasses at hcol
    cases hv : strLookup l k with
    | none => rw [hv] at hcol; exact absurd hcol (by simp)
    | some v => rfl

/-- C7: the buildinfo test's verdict depends only on the eight required
keys and the two collection keys — two dictionaries agreeing on the
lookups of those ten keys get the same verdict — and appending extra
top-level entries to a passing dictionary never makes the test fail. -/
theorem buildinfo_verdict_frame :
    (∀ l1 l2 : List (PyVal × PyVal),
        (∀ k ∈ specialKeys, strLookup l1 k = strLookup l2 k) →
        testBuildinfoPasses (PyVal.dict l1) = testBuildinfoPasses (PyVal.dict l2)) ∧
    (∀ l extra : List (PyVal × PyVal),
        testBuildinfoPasses (PyVal.dict l) = true →
        testBuildinfoPasses (PyVal.dict (l ++ extra)) = true) := by
  refine ⟨fun l1 l2 h => testBuildinfoPasses_congr h, fun l extra h => ?_⟩
  have hagree : ∀ k ∈ specialKeys, strLookup (l ++ extra) k = strLookup l k :=
    fun k hk => strLookup_append_left l extra k (pass_special_keys_present h k hk)
  rw [testBuildinfoPasses_congr hagree]
  exact h

/-- C7 witness: at the concrete passing mapping, agreement with its
extension gives the same verdict, and the extension still passes. -/
theorem buildinfo_verdict_frame_witness :
    testBuildinfoPasses (PyVal.dict goodInfoEntries) =
      testBuildinfoPasses
        (PyVal.dict (goodInfoEntries ++ [(PyVal.str "extra", PyVal.int 7)])) ∧
    testBuildinfoPasses
      (PyVal.dict (goodInfoEntries ++ [(PyVal.str "extra", PyVal.int 7)])) = true := by
  constructor
  · refine buildinfo_verdict_frame.1 goodInfoEntries
      (goodInfoEntries ++ [(PyVal.str "extra", PyVal.int 7)]) ?_
    intro k hk
    simp only [specialKeys, expectedKeys, collectionKeys, List.mem_append,
      List.mem_cons, List.not_mem_nil, or_false] at hk
    rcases hk with ⟨rfl | rfl | rfl | rfl | rfl | rfl | rfl | rfl⟩ | rfl | rfl <;> rfl
  · exact buildinfo_verdict_frame.2 goodInfoEntries
      [(PyVal.str "extra", PyVal.int 7)] (by decide)

/-- With at least two arguments, `_load_module` produces the insert /
truncate / import effect sequence. -/
theorem loadModuleTrace_cons (resolve : String → String) (modName : String)
    (a0 a1 : String) (rest : List String) :
    loadModuleTrace resolve modName (a0 :: a1 :: rest) =
      [Effect.insertPathFront (resolve a1), Effect.setArgv [a0],
       Effect.importModule modName] := by
  have h2 : ¬ ((a0 :: a1 :: rest).length < 2) := by
    simp only [List.length_cons]
    omega
  unfold loadModuleTrace
  rw [if_neg h2]
  rfl

/-- C4: with fewer than two command-line arguments, both harnesses'
`_load_module` raises `unittest.SkipTest` and never attempts to import
the binding module. -/
theorem load_skips_without_argument (resolve : String → String)
    (argv : List String) (h : argv.length < 2) :
    buildinfoTestLoad resolve argv = [Effect.raiseSkipTest] ∧
    greetTestLoad resolve argv = [Effect.raiseSkipTest] ∧
    ∀ n, Effect.importModule n ∉ buildinfoTestLoad resolve argv ∧
      Effect.importModule n ∉ greetTestLoad resolve argv := by
  have hb : buildinfoTestLoad resolve argv = [Effect.raiseSkipTest] := by
    unfold buildinfoTestLoad loadModuleTrace
    rw [if_pos h]
  have hg : greetTestLoad resolve argv = [Effect.raiseSkipTest] := by
    unfold greetTestLoad loadModuleTrace
    rw [if_pos h]
  refine ⟨hb, hg, fun n => ⟨?_, ?_⟩⟩
  · rw [hb]; simp
  · rw [hg]; simp

/-- C4 witness: a single-element argv (just the script name) skips. -/
theorem load_skips_without_argument_witness :
    buildinfoTestLoad (fun p => p) ["test_buildinfo.py"] = [Effect.raiseSkipTest] ∧
    greetTestLoad (fun p => p) ["test_buildinfo.py"] = [Effect.raiseSkipTest] ∧
    ∀ n, Effect.importModule n ∉ buildinfoTestLoad (fun p => p) ["test_buildinfo.py"] ∧
      Effect.importModule n ∉ greetTestLoad (fun p => p) ["test_buildinfo.py"] :=
  load_skips_without_argument (fun p => p) ["test_buildinfo.py"] (by decide)

/-- C5: with a bindings directory argument, both test harnesses and the
example emit the insertion of the resolved directory before the import in
their effect traces, the insertion puts the resolved path at position 0
of `sys.path`, and — given that path resolution yields absolute paths —
the inserted path is absolute. -/
theorem load_inserts_resolved_path_before_import
    (resolve : String → String) (a0 a1 : String) (rest : List String)
    (s : SysState) (habs : ∀ p, isAbsolutePath (resolve p) = true) :
    buildinfoTestLoad resolve (a0 :: a1 :: rest) =
      [Effect.insertPathFront (resolve a1), Effect.setArgv [a0],
       Effect.importModule buildinfoModuleName] ∧
    greetTestLoad resolve (a0 :: a1 :: rest) =
      [Effect.insertPathFront (resolve a1), Effect.setArgv [a0],
       Effect.importModule greetModuleName] ∧
    (∀ ret, exampleMainTrace resolve (a0 :: a1 :: rest) ret =
      [Effect.insertPathFront (resolve a1),
       Effect.importModule exampleModuleName, Effect.printPretty ret]) ∧
    (runTrace s (buildinfoTestLoad resolve (a0 :: a1 :: rest))).path =
      resolve a1 :: s.path ∧
    (runTrace s (greetTestLoad resolve (a0 :: a1 :: rest))).path =
      resolve a1 :: s.path ∧
    (∀ ret, (runTrace s (exampleMainTrace resolve (a0 :: a1 :: rest) ret)).path =
      resolve a1 :: s.path) ∧
    isAbsolutePath (resolve a1) = true := by
  have hb := loadModuleTrace_cons resolve buildinfoModuleName a0 a1 rest
  have hg := loadModuleTrace_cons resolve greetModuleName a0 a1 rest
  have hex : ∀ ret, exampleMainTrace resolve (a0 :: a1 :: rest) ret =
      [Effect.insertPathFront (resolve a1),
       Effect.importModule exampleModuleName, Effect.printPretty ret] := by
    intro ret
    have h1 : (a0 :: a1 :: rest).length > 1 := by
      simp only [List.length_cons]
      omega
    unfold exampleMainTrace
    rw [if_pos h1]
    rfl
  refine ⟨hb, hg, hex, ?_, ?_, fun ret => ?_, habs a1⟩
  · unfold buildinfoTestLoad
    rw [hb]
    simp [runTrace, applyEffect]
  · unfold greetTestLoad
    rw [hg]
    simp [runTrace, applyEffect]
  · rw [hex ret]
    simp [runTrace, applyEffect]

/-- A resolver standing in for `pathlib.Path.resolve` in witnesses; it is
constantly an absolute path. -/
def constAbsResolve : String → String := fun _ => "/opt/uni20/build/bindings/python"

/-- C5 witness: instantiated at a concrete resolver, argv and state. -/
theorem load_inserts_resolved_path_before_import_witness :
    buildinfoTestLoad constAbsResolve ["prog", "bdir"] =
      [Effect.insertPathFront (constAbsResolve "bdir"), Effect.setArgv ["prog"],
       Effect.importModule buildinfoModuleName] ∧
    greetTestLoad constAbsResolve ["prog", "bdir"] =
      [Effect.insertPathFront (constAbsResolve "bdir"), Effect.setArgv ["prog"],
       Effect.importModule greetModuleName] ∧
    (∀ ret, exampleMainTrace constAbsResolve ["prog", "bdir"] ret =
      [Effect.insertPathFront (constAbsResolve "bdir"),
       Effect.importModule exampleModuleName, Effect.printPretty ret]) ∧
    (runTrace ⟨["site-packages"], ["prog", "bdir"]⟩
        (buildinfoTestLoad constAbsResolve ["prog", "bdir"])).path =
      constAbsResolve "bdir" :: ["site-packages"] ∧
    (runTrace ⟨["site-packages"], ["prog", "bdir"]⟩
        (greetTestLoad constAbsResolve ["prog", "bdir"])).path =
      constAbsResolve "bdir" :: ["site-packages"] ∧
    (∀ ret, (runTrace ⟨["site-packages"], ["prog", "bdir"]⟩
        (exampleMainTrace constAbsResolve ["prog", "bdir"] ret)).path =
      constAbsResolve "bdir" :: ["site-packages"]) ∧
    isAbsolutePath (constAbsResolve "bdir") = true :=
  load_inserts_resolved_path_before_import constAbsResolve "prog" "bdir" []
    ⟨["site-packages"], ["prog", "bdir"]⟩ (fun _ => rfl)

/-- C9: for every argv and every value returned by `buildinfo()`, the
example's trace is an argv-determined prefix (the optional path
insertion; empty exactly when no directory argument was given, and
otherwise just the insertion of the resolved first argument — no flags)
followed by the import of the binding module and the pretty-printing of
whatever value `buildinfo()` returned; the printed value is never
inspected or validated first. -/
theorem example_prints_buildinfo (resolve : String → String)
    (argv : List String) :
    ∃ pre, (∀ ret, exampleMainTrace resolve argv ret =
        pre ++ [Effect.importModule exampleModuleName, Effect.printPretty ret]) ∧
      ((argv.length ≤ 1 ∧ pre = []) ∨
       (argv.length > 1 ∧
        pre = [Effect.insertPathFront (resolve (argv.getD 1 ""))])) := by
  by_cases h : argv.length > 1
  · refine ⟨[Effect.insertPathFront (resolve (argv.getD 1 ""))],
      fun ret => ?_, Or.inr ⟨h, rfl⟩⟩
    unfold exampleMainTrace
    rw [if_pos h]
  · refine ⟨[], fun ret => ?_, Or.inl ⟨by omega, rfl⟩⟩
    unfold exampleMainTrace
    rw [if_neg h]

/-- C9 witness: instantiated at a concrete resolver and argv. -/
theorem example_prints_buildinfo_witness :
    ∃ pre, (∀ ret, exampleMainTrace constAbsResolve ["prog"] ret =
        pre ++ [Effect.importModule exampleModuleName, Effect.printPretty ret]) ∧
      (((["prog"] : List String).length ≤ 1 ∧ pre = []) ∨
       ((["prog"] : List String).length > 1 ∧
        pre = [Effect.insertPathFront
          (constAbsResolve ((["prog"] : List String).getD 1 ""))])) :=
  example_prints_buildinfo constAbsResolve ["prog"]

/-- C10: the test harnesses consume only the first command-line argument
— the load trace is unchanged by anything after argv[1] — and after
loading, `sys.argv` is exactly the singleton holding argv[0]. -/
theorem load_uses_only_first_argument (resolve : String → String)
    (a0 a1 : String) (rest rest2 : List String) (s : SysState) :
    buildinfoTestLoad resolve (a0 :: a1 :: rest) =
      buildinfoTestLoad resolve (a0 :: a1 :: rest2) ∧
    greetTestLoad resolve (a0 :: a1 :: rest) =
      greetTestLoad resolve (a0 :: a1 :: rest2) ∧
    (runTrace s (buildinfoTestLoad resolve (a0 :: a1 :: rest))).argv = [a0] ∧
    (runTrace s (greetTestLoad resolve (a0 :: a1 :: rest))).argv = [a0] := by
  unfold buildinfoTestLoad greetTestLoad
  rw [loadModuleTrace_cons, loadModuleTrace_cons, loadModuleTrace_cons,
    loadModuleTrace_cons]
  refine ⟨rfl, rfl, ?_, ?_⟩ <;> simp [runTrace, applyEffect]

/-- C10 witness: instantiated at two argvs sharing the first two
arguments and an initial state. -/
theorem load_uses_only_first_argument_witness :
    buildinfoTestLoad constAbsResolve ["t", "d", "x"] =
      buildinfoTestLoad constAbsResolve ["t", "d", "y", "z"] ∧
    greetTestLoad constAbsResolve ["t", "d", "x"] =
      greetTestLoad constAbsResolve ["t", "d", "y", "z"] ∧
    (runTrace ⟨[], ["t", "d", "x"]⟩
        (buildinfoTestLoad constAbsResolve ["t", "d", "x"])).argv = ["t"] ∧
    (runTrace ⟨[], ["t", "d", "x"]⟩
        (greetTestLoad constAbsResolve ["t", "d", "x"])).argv = ["t"] :=
  load_uses_only_first_argument constAbsResolve "t" "d" ["x"] ["y", "z"]
    ⟨[], ["t", "d", "x"]⟩

/-- C8 counterexample: at a concrete resolver and argv, the greet harness
imports "uni20_python" while the buildinfo harness imports "uni20"; the
two module names differ, so the consumers do not all import one and the
same module. -/
theorem consumers_module_name_counterexample :
    greetTestLoad (fun p => p) ["t", "d"] =
      [Effect.insertPathFront "d", Effect.setArgv ["t"],
       Effect.importModule "uni20_python"] ∧
    buildinfoTestLoad (fun p => p) ["t", "d"] =
      [Effect.insertPathFront "d", Effect.setArgv ["t"],
       Effect.importModule "uni20"] ∧
    greetModuleName ≠ buildinfoModuleName := by
  refine ⟨rfl, rfl, ?_⟩
  decide

/-- C8 amended: the two buildinfo consumers (the buildinfo test and the
example) import one and the same module name, "uni20", and each trace
does import its module; the greet consumer imports the distinct module
name "uni20_python". -/
theorem buildinfo_consumers_share_module_name :
    buildinfoModuleName = "uni20" ∧
    exampleModuleName = buildinfoModuleName ∧
    greetModuleName = "uni20_python" ∧
    greetModuleName ≠ buildinfoModuleName ∧
    (∀ (resolve : String → String) (a0 a1 : String) (rest : List String),
      Effect.importModule buildinfoModuleName ∈
        buildinfoTestLoad resolve (a0 :: a1 :: rest)) ∧
    (∀ (resolve : String → String) (argv : List String) (ret : PyVal),
      Effect.importModule exampleModuleName ∈ exampleMainTrace resolve argv ret) ∧
    (∀ (resolve : String → String) (a0 a1 : String) (rest : List String),
      Effect.importModule greetModuleName ∈
        greetTestLoad resolve (a0 :: a1 :: rest)) := by
  refine ⟨rfl, rfl, rfl, by decide, fun resolve a0 a1 rest => ?_,
    fun resolve argv ret => ?_, fun resolve a0 a1 rest => ?_⟩
  · unfold buildinfoTestLoad
    rw [loadModuleTrace_cons]
    simp
  · unfold exampleMainTrace
    simp
  · unfold greetTestLoad
    rw [loadModuleTrace_cons]
    simp
